import Mathlib

/-!
Shallow embedding of the BarcodeGen repository (src/app.py and
src/make_custom_barcodes.py).

Modelling conventions:
* Python floats are modelled as exact rationals (`ℚ`); every constant in the
  source (`72.0 / 25.4`, `0.30`, …) is a decimal literal, so its rational
  reading is the intended value.
* The Code 128 encoding collaborator (reportlab) is external to the
  repository; `draw_single_label` reads back only `tmp.width`, the intrinsic
  module count at `barWidth = 1`.  The geometry is therefore embedded as a
  function of that module count, and the caption x-position as a function of
  the measured text width (`c.stringWidth`, also external).
* Python's `SERIES_BY_SKU[color_code]` raises `KeyError` on a missing key;
  the embedding uses `(List.lookup …).getD []`.  The two agree on every
  input reaching that line because the colour-code check has already
  succeeded and every `COLOURS` key is a `SERIES_BY_SKU` key (proved below);
  on inputs failing the colour check the lookup is never evaluated.
* `str.isdigit` / `str.upper` / `str.strip` are modelled on their ASCII
  behaviour, which is the range the validator's contract is about.
-/

/-- The fully resolved geometry for one label, as produced by
`draw_single_label`: bar width, bar height, effective quiet zone, and the
origin handed to `bc.drawOn`. -/
structure SizingResult where
  bar_width : ℚ
  bar_height : ℚ
  internal_quiet : ℚ
  x : ℚ
  y : ℚ
  deriving DecidableEq

namespace App

/-- `MM_TO_PT = 72.0 / 25.4` (src/app.py line 12). -/
def MM_TO_PT : ℚ := 72.0 / 25.4

/-- `PAGE_W = 70 * MM_TO_PT` (src/app.py line 13). -/
def PAGE_W : ℚ := 70 * MM_TO_PT

/-- `PAGE_H = 30 * MM_TO_PT` (src/app.py line 14). -/
def PAGE_H : ℚ := 30 * MM_TO_PT

/-- `left_margin = 1.0 * MM_TO_PT` (src/app.py lines 33-34). -/
def left_margin : ℚ := 1.0 * MM_TO_PT

/-- `right_margin = 1.0 * MM_TO_PT` (src/app.py line 35). -/
def right_margin : ℚ := 1.0 * MM_TO_PT

/-- `top_margin = 1.0 * MM_TO_PT` (src/app.py line 36). -/
def top_margin : ℚ := 1.0 * MM_TO_PT

/-- `bottom_margin = 1.0 * MM_TO_PT` (src/app.py line 37). -/
def bottom_margin : ℚ := 1.0 * MM_TO_PT

/-- `font_size = 8` (src/app.py line 41). -/
def font_size : ℚ := 8

/-- `gap_above_text = 0.8 * MM_TO_PT` (src/app.py line 42). -/
def gap_above_text : ℚ := 0.8 * MM_TO_PT

/-- `text_band_h = font_size + gap_above_text` (src/app.py line 43). -/
def text_band_h : ℚ := font_size + gap_above_text

/-- `usable_w = PAGE_W - left_margin - right_margin` (src/app.py line 45). -/
def usable_w : ℚ := PAGE_W - left_margin - right_margin

/-- `usable_h = PAGE_H - top_margin - bottom_margin - text_band_h`
(src/app.py line 46). -/
def usable_h : ℚ := PAGE_H - top_margin - bottom_margin - text_band_h

/-- `X_MIN_PT = 0.30 * MM_TO_PT` (src/app.py lines 49-50). -/
def X_MIN_PT : ℚ := 0.30 * MM_TO_PT

/-- `quiet_each_side = max(10 * X_MIN_PT, 2.0 * MM_TO_PT)`
(src/app.py lines 53-54). -/
def quiet_each_side : ℚ := max (10 * X_MIN_PT) (2.0 * MM_TO_PT)

/-- `bar_height = min(usable_h, 14 * MM_TO_PT)` (src/app.py lines 57-58). -/
def bar_height : ℚ := min usable_h (14 * MM_TO_PT)

/-- `width_at_xmin = module_count * X_MIN_PT + 2 * quiet_each_side`
(src/app.py line 65). -/
def width_at_xmin (module_count : ℚ) : ℚ :=
  module_count * X_MIN_PT + 2 * quiet_each_side

/-- `safety_quiet = max(0.1 * MM_TO_PT, 0.05 * (usable_w / 2.0))`
(src/app.py line 72). -/
def safety_quiet : ℚ := max (0.1 * MM_TO_PT) (0.05 * (usable_w / 2.0))

/-- `available_for_bars = max(usable_w - 2 * safety_quiet, 1)`
(src/app.py line 73), as a function of the two locals it reads. -/
def available_for_bars (w q : ℚ) : ℚ := max (w - 2 * q) 1

/-- The geometry computed by `draw_single_label` (src/app.py lines 31-88) as
a function of the intrinsic module count `tmp.width` returned by the
external encoder at `barWidth = 1`. -/
def draw_single_label (module_count : ℚ) : SizingResult :=
  let p :=
    if width_at_xmin module_count ≤ usable_w then
      (X_MIN_PT, quiet_each_side)
    else
      (available_for_bars usable_w safety_quiet / module_count, safety_quiet)
  { bar_width := p.1
    bar_height := bar_height
    internal_quiet := p.2
    x := left_margin + p.2
    y := bottom_margin + text_band_h + (usable_h - bar_height) / 2 }

/-- Caption x-position `(PAGE_W - text_w) / 2.0` (src/app.py line 95), as a
function of the externally measured text width. -/
def caption_x (text_w : ℚ) : ℚ := (PAGE_W - text_w) / 2.0

/-- Caption baseline y-position `bottom_margin` (src/app.py line 95). -/
def caption_y : ℚ := bottom_margin

end App

namespace MakeCustom

/-- `MM_TO_PT = 72.0 / 25.4` (src/make_custom_barcodes.py line 8). -/
def MM_TO_PT : ℚ := 72.0 / 25.4

/-- `PAGE_W = 70 * MM_TO_PT` (src/make_custom_barcodes.py line 9). -/
def PAGE_W : ℚ := 70 * MM_TO_PT

/-- `PAGE_H = 30 * MM_TO_PT` (src/make_custom_barcodes.py line 10). -/
def PAGE_H : ℚ := 30 * MM_TO_PT

/-- `left_margin` (src/make_custom_barcodes.py lines 22-23). -/
def left_margin : ℚ := 1.0 * MM_TO_PT

/-- `right_margin` (src/make_custom_barcodes.py line 24). -/
def right_margin : ℚ := 1.0 * MM_TO_PT

/-- `top_margin` (src/make_custom_barcodes.py line 25). -/
def top_margin : ℚ := 1.0 * MM_TO_PT

/-- `bottom_margin` (src/make_custom_barcodes.py line 26). -/
def bottom_margin : ℚ := 1.0 * MM_TO_PT

/-- `font_size = 8` (src/make_custom_barcodes.py line 30). -/
def font_size : ℚ := 8

/-- `gap_above_text` (src/make_custom_barcodes.py line 31). -/
def gap_above_text : ℚ := 0.8 * MM_TO_PT

/-- `text_band_h` (src/make_custom_barcodes.py line 32). -/
def text_band_h : ℚ := font_size + gap_above_text

/-- `usable_w` (src/make_custom_barcodes.py line 34). -/
def usable_w : ℚ := PAGE_W - left_margin - right_margin

/-- `usable_h` (src/make_custom_barcodes.py line 35). -/
def usable_h : ℚ := PAGE_H - top_margin - bottom_margin - text_band_h

/-- `X_MIN_PT` (src/make_custom_barcodes.py lines 38-39). -/
def X_MIN_PT : ℚ := 0.30 * MM_TO_PT

/-- `quiet_each_side` (src/make_custom_barcodes.py lines 42-43). -/
def quiet_each_side : ℚ := max (10 * X_MIN_PT) (2.0 * MM_TO_PT)

/-- `bar_height` (src/make_custom_barcodes.py lines 46-47). -/
def bar_height : ℚ := min usable_h (14 * MM_TO_PT)

/-- `width_at_xmin` (src/make_custom_barcodes.py line 54). -/
def width_at_xmin (module_count : ℚ) : ℚ :=
  module_count * X_MIN_PT + 2 * quiet_each_side

/-- `safety_quiet` (src/make_custom_barcodes.py line 61). -/
def safety_quiet : ℚ := max (0.1 * MM_TO_PT) (0.05 * (usable_w / 2.0))

/-- `available_for_bars` (src/make_custom_barcodes.py line 62). -/
def available_for_bars (w q : ℚ) : ℚ := max (w - 2 * q) 1

/-- The geometry computed by `draw_single_label`
(src/make_custom_barcodes.py lines 20-77) as a function of the intrinsic
module count. -/
def draw_single_label (module_count : ℚ) : SizingResult :=
  let p :=
    if width_at_xmin module_count ≤ usable_w then
      (X_MIN_PT, quiet_each_side)
    else
      (available_for_bars usable_w safety_quiet / module_count, safety_quiet)
  { bar_width := p.1
    bar_height := bar_height
    internal_quiet := p.2
    x := left_margin + p.2
    y := bottom_margin + text_band_h + (usable_h - bar_height) / 2 }

/-- Caption x-position (src/make_custom_barcodes.py line 84). -/
def caption_x (text_w : ℚ) : ℚ := (PAGE_W - text_w) / 2.0

/-- Caption baseline y-position (src/make_custom_barcodes.py line 84). -/
def caption_y : ℚ := bottom_margin

end MakeCustom

/-- The `COLOURS` table (src/app.py lines 16-21). -/
def COLOURS : List (String × String) :=
  [("AT0001", "Black"), ("AT0002", "Blue"), ("AT0003", "White"),
   ("AT0004", "Pink")]

/-- The `SERIES_BY_SKU` table (src/app.py lines 24-29); `list("AEIMQUY")` is
a list of one-character strings. -/
def SERIES_BY_SKU : List (String × List String) :=
  [("AT0003", ["A", "E", "I", "M", "Q", "U", "Y"]),
   ("AT0002", ["B", "F", "J", "N", "R", "V", "Z"]),
   ("AT0001", ["C", "G", "K", "O", "S", "W"]),
   ("AT0004", ["D", "H", "L", "P", "T", "X"])]

/-- Python `str.upper` (ASCII reading): upper-case every character. -/
def py_upper (s : String) : String :=
  ⟨s.data.map Char.toUpper⟩

/-- Python `str.strip`: drop leading and trailing whitespace. -/
def py_strip (s : String) : String :=
  ⟨List.reverse (List.dropWhile Char.isWhitespace
    (List.reverse (List.dropWhile Char.isWhitespace s.data)))⟩

/-- Python `str.isdigit`: non-empty and every character a decimal digit
(ASCII reading). -/
def py_isdigit (s : String) : Bool :=
  !s.isEmpty && s.data.all Char.isDigit

/-- Python `int(s)` restricted to digit strings, the only strings the
validator feeds it (the 4-digit check precedes the conversion). -/
def py_int (s : String) : ℕ :=
  s.data.foldl (fun a c => 10 * a + (c.toNat - 48)) 0

/-- The number checks of `validate_inputs` (src/app.py lines 108-121):
presence, 4-digit shape, 0001–9999 window, ordering. -/
def check_numbers (series start_num end_num : String) :
    Except String (String × ℕ × ℕ) :=
  if start_num.isEmpty ∨ end_num.isEmpty then
    .error ("Please provide both Start and End numbers (0001–9999).")
  else if start_num.length ≠ 4 ∨ end_num.length ≠ 4 ∨
      ¬ py_isdigit start_num ∨ ¬ py_isdigit end_num then
    .error ("Numbers must be 4 digits, e.g., 0001, 0075, 0315.")
  else
    let s := py_int start_num
    let e := py_int end_num
    if ¬ (1 ≤ s ∧ s ≤ 9999 ∧ 1 ≤ e ∧ e ≤ 9999) then
      .error ("Numbers must be between 0001 and 9999.")
    else if e < s then
      .error ("End number must be greater than or equal to Start number.")
    else
      .ok (series, s, e)

/-- `validate_inputs` (src/app.py lines 97-121): colour-code check, series
check, then the number checks, short-circuiting in that order. -/
def validate_inputs (color_code series start_num end_num : String) :
    Except String (String × ℕ × ℕ) :=
  if (COLOURS.lookup color_code).isNone then
    .error ("Invalid colour code. Choose one of the listed AT000X values.")
  else
    let series := py_upper (py_strip series)
    let allowed_for_sku := (SERIES_BY_SKU.lookup color_code).getD []
    if series ∉ allowed_for_sku then
      .error ("Invalid series for " ++ color_code ++ ". Allowed: " ++
        String.intercalate (", ") allowed_for_sku)
    else
      check_numbers series start_num end_num

/-- Python `f"{i:04d}"` for a natural number: decimal digits zero-padded on
the left to width 4. -/
def pad4 (n : ℕ) : String :=
  let s := Nat.repr n
  ⟨List.replicate (4 - s.length) '0'⟩ ++ s

/-- The barcode texts produced by the batch loop of `index`
(src/app.py lines 143-145): one text per serial number of
`range(start_i, end_i + 1)`, in ascending order. -/
def label_texts (color_code series : String) (s e : ℕ) : List String :=
  (List.range' s (e + 1 - s)).map
    (fun i => color_code ++ "-" ++ series ++ pad4 i)

/-! ## Helper lemmas -/

/-- In the fits branch the geometry uses the minimum module width and the
full rule-mandated quiet zone. -/
theorem App.draw_eq_of_fits (mc : ℚ)
    (h : App.width_at_xmin mc ≤ App.usable_w) :
    App.draw_single_label mc =
      { bar_width := App.X_MIN_PT
        bar_height := App.bar_height
        internal_quiet := App.quiet_each_side
        x := App.left_margin + App.quiet_each_side
        y := App.bottom_margin + App.text_band_h +
          (App.usable_h - App.bar_height) / 2 } := by
  simp [App.draw_single_label, if_pos h]

/-- In the overflow branch the geometry uses the scaled bar width and the
safety quiet zone. -/
theorem App.draw_eq_of_overflow (mc : ℚ)
    (h : ¬ App.width_at_xmin mc ≤ App.usable_w) :
    App.draw_single_label mc =
      { bar_width := App.available_for_bars App.usable_w App.safety_quiet / mc
        bar_height := App.bar_height
        internal_quiet := App.safety_quiet
        x := App.left_margin + App.safety_quiet
        y := App.bottom_margin + App.text_band_h +
          (App.usable_h - App.bar_height) / 2 } := by
  simp [App.draw_single_label, if_neg h]

/-- For the fixed 70mm×30mm label the clamp in `available_for_bars` is
inactive: the usable width minus the two safety quiet zones is 23256/127 pt
(≈ 183 pt), well above the 1 pt floor. -/
theorem App.available_for_bars_eq :
    App.available_for_bars App.usable_w App.safety_quiet = 23256 / 127 := by
  norm_num [App.available_for_bars, App.usable_w, App.safety_quiet,
    App.PAGE_W, App.left_margin, App.right_margin, App.MM_TO_PT]

/-- The overflow condition forces a strictly positive module count. -/
theorem App.overflow_mc_pos (mc : ℚ)
    (h : ¬ App.width_at_xmin mc ≤ App.usable_w) : 0 < mc := by
  rw [App.width_at_xmin] at h
  push_neg at h
  have hx : App.X_MIN_PT = 108 / 127 := by
    norm_num [App.X_MIN_PT, App.MM_TO_PT]
  have hq : App.quiet_each_side = 1080 / 127 := by
    norm_num [App.quiet_each_side, App.X_MIN_PT, App.MM_TO_PT]
  have hw : App.usable_w = 24480 / 127 := by
    norm_num [App.usable_w, App.PAGE_W, App.left_margin, App.right_margin,
      App.MM_TO_PT]
  rw [hx, hq, hw] at h
  nlinarith

/-! ## Claim theorems -/

/-- C2: whenever `moduleCount × 0.30mm + 2 × max(10 × 0.30mm, 2mm)` fits in
the usable width, the layout chooses a bar width of exactly the minimum
module width 0.30mm and the full rule-mandated quiet zone per side. -/
theorem fits_case_min_module (mc : ℚ)
    (h : App.width_at_xmin mc ≤ App.usable_w) :
    (App.draw_single_label mc).bar_width = 0.30 * App.MM_TO_PT ∧
    (App.draw_single_label mc).internal_quiet =
      max (10 * (0.30 * App.MM_TO_PT)) (2 * App.MM_TO_PT) := by
  rw [App.draw_eq_of_fits mc h]
  constructor
  · rfl
  · norm_num [App.quiet_each_side, App.X_MIN_PT]

/-- C2 witness: a short text (module count 100, e.g. `AT0001-C0001`-sized)
fits and gets the minimum module width and full quiet zone. -/
theorem fits_case_min_module_witness :
    (App.draw_single_label 100).bar_width = 0.30 * App.MM_TO_PT ∧
    (App.draw_single_label 100).internal_quiet =
      max (10 * (0.30 * App.MM_TO_PT)) (2 * App.MM_TO_PT) :=
  fits_case_min_module 100 (by
    norm_num [App.width_at_xmin, App.usable_w, App.PAGE_W, App.left_margin,
      App.right_margin, App.quiet_each_side, App.X_MIN_PT, App.MM_TO_PT])

/-- C3: for every request the vertical origin is
`bottomMargin + captionBandHeight + (usableHeight − barHeight)/2`, and with
`barHeight = min(usableHeight, 14mm)` the barcode band lies between the
caption band and the top margin. -/
theorem vertical_centering (mc : ℚ) :
    (App.draw_single_label mc).y =
      App.bottom_margin + App.text_band_h +
        (App.usable_h - App.bar_height) / 2 ∧
    (App.draw_single_label mc).bar_height =
      min App.usable_h (14 * App.MM_TO_PT) ∧
    App.bottom_margin + App.text_band_h ≤ (App.draw_single_label mc).y ∧
    (App.draw_single_label mc).y + (App.draw_single_label mc).bar_height ≤
      App.PAGE_H - App.top_margin := by
  have hy : (App.draw_single_label mc).y =
      App.bottom_margin + App.text_band_h +
        (App.usable_h - App.bar_height) / 2 := by
    simp [App.draw_single_label]
  have hb : (App.draw_single_label mc).bar_height = App.bar_height := by
    simp [App.draw_single_label]
  refine ⟨hy, ?_, ?_, ?_⟩
  · rw [hb]; rfl
  · rw [hy]
    norm_num [App.usable_h, App.bar_height, App.PAGE_H, App.top_margin,
      App.bottom_margin, App.text_band_h, App.font_size, App.gap_above_text,
      App.MM_TO_PT]
  · rw [hy, hb]
    norm_num [App.usable_h, App.bar_height, App.PAGE_H, App.top_margin,
      App.bottom_margin, App.text_band_h, App.font_size, App.gap_above_text,
      App.MM_TO_PT]

/-- C7: the geometry routine of src/app.py and the one of
src/make_custom_barcodes.py compute identical sizing results, and place the
caption identically, for every module count and measured text width. -/
theorem duplicate_layouts_equal :
    (∀ mc : ℚ, App.draw_single_label mc = MakeCustom.draw_single_label mc) ∧
    (∀ tw : ℚ, App.caption_x tw = MakeCustom.caption_x tw) ∧
    App.caption_y = MakeCustom.caption_y :=
  ⟨fun _ => rfl, fun _ => rfl, rfl⟩

/-- C8: the rule-mandated quiet zone per side is `max(10 × 0.30mm, 2mm)`,
the bar height is `min(usableHeight, 14mm)`, and so the bar height never
exceeds the usable height. -/
theorem quiet_zone_and_bar_height (mc : ℚ) :
    App.quiet_each_side = max (10 * (0.30 * App.MM_TO_PT)) (2 * App.MM_TO_PT) ∧
    (App.draw_single_label mc).bar_height =
      min App.usable_h (14 * App.MM_TO_PT) ∧
    (App.draw_single_label mc).bar_height ≤ App.usable_h := by
  have hb : (App.draw_single_label mc).bar_height = App.bar_height := by
    simp [App.draw_single_label]
  refine ⟨by norm_num [App.quiet_each_side, App.X_MIN_PT], by rw [hb]; rfl, ?_⟩
  rw [hb, App.bar_height]
  exact min_le_left _ _

/-- C1 counterexample: module count 209 overflows (its width at the minimum
module width exceeds the usable width), yet the computed bar width
23256/26543 pt is not strictly less than the minimum module width
108/127 pt. -/
theorem overflow_not_below_min_module :
    ¬ App.width_at_xmin 209 ≤ App.usable_w ∧
    ¬ (App.draw_single_label 209).bar_width < App.X_MIN_PT := by
  have h : ¬ App.width_at_xmin 209 ≤ App.usable_w := by
    norm_num [App.width_at_xmin, App.usable_w, App.PAGE_W, App.left_margin,
      App.right_margin, App.quiet_each_side, App.X_MIN_PT, App.MM_TO_PT]
  refine ⟨h, ?_⟩
  rw [App.draw_eq_of_overflow 209 h]
  norm_num [App.available_for_bars, App.usable_w, App.safety_quiet,
    App.PAGE_W, App.left_margin, App.right_margin, App.X_MIN_PT, App.MM_TO_PT]

/-- C1 (amended): in the overflow case the total symbol width including the
two safety quiet zones equals the usable width exactly; the bar width is
strictly below the minimum module width whenever the module count at
minimum module width exceeds even the usable width reduced by the two
safety quiet zones (for module counts between the two thresholds the
computed bar width is not below the minimum). -/
theorem overflow_exact_fill (mc : ℚ)
    (h : ¬ App.width_at_xmin mc ≤ App.usable_w) :
    mc * (App.draw_single_label mc).bar_width +
      2 * (App.draw_single_label mc).internal_quiet = App.usable_w ∧
    (App.usable_w - 2 * App.safety_quiet < mc * App.X_MIN_PT →
      (App.draw_single_label mc).bar_width < App.X_MIN_PT) := by
  have hmc : 0 < mc := App.overflow_mc_pos mc h
  rw [App.draw_eq_of_overflow mc h]
  dsimp only
  have hsq : App.safety_quiet = 612 / 127 := by
    norm_num [App.safety_quiet, App.usable_w, App.PAGE_W, App.left_margin,
      App.right_margin, App.MM_TO_PT]
  have hw : App.usable_w = 24480 / 127 := by
    norm_num [App.usable_w, App.PAGE_W, App.left_margin, App.right_margin,
      App.MM_TO_PT]
  have hx : App.X_MIN_PT = 108 / 127 := by
    norm_num [App.X_MIN_PT, App.MM_TO_PT]
  rw [App.available_for_bars_eq, hsq, hw, hx]
  constructor
  · rw [mul_comm mc, div_mul_cancel₀ _ (ne_of_gt hmc)]
    norm_num
  · intro hlt
    rw [div_lt_iff₀ hmc]
    linarith

/-- C1 (amended) witness: module count 300 overflows, the symbol plus the
two safety quiet zones exactly fills the usable width, and the bar width is
strictly below the minimum module width. -/
theorem overflow_exact_fill_witness :
    (300 : ℚ) * (App.draw_single_label 300).bar_width +
      2 * (App.draw_single_label 300).internal_quiet = App.usable_w ∧
    (App.draw_single_label 300).bar_width < App.X_MIN_PT :=
  ⟨(overflow_exact_fill 300 (by
      norm_num [App.width_at_xmin, App.usable_w, App.PAGE_W, App.left_margin,
        App.right_margin, App.quiet_each_side, App.X_MIN_PT,
        App.MM_TO_PT])).1,
   (overflow_exact_fill 300 (by
      norm_num [App.width_at_xmin, App.usable_w, App.PAGE_W, App.left_margin,
        App.right_margin, App.quiet_each_side, App.X_MIN_PT,
        App.MM_TO_PT])).2 (by
      norm_num [App.usable_w, App.safety_quiet, App.PAGE_W, App.left_margin,
        App.right_margin, App.X_MIN_PT, App.MM_TO_PT])⟩

/-- C9: the width available for bars is clamped from below to 1 pt before
the division, so the overflow bar width is strictly positive; the clamped
quotient is positive for every positive module count even when the width
minus the two safety quiet zones is zero or negative; and under an active
clamp the symbol-plus-quiet-zones width can differ from the usable width. -/
theorem overflow_clamp_positive :
    (∀ mc : ℚ, ¬ App.width_at_xmin mc ≤ App.usable_w →
      0 < (App.draw_single_label mc).bar_width) ∧
    (∀ w q mc : ℚ, 0 < mc → 0 < App.available_for_bars w q / mc) ∧
    (∃ w q mc : ℚ, 0 < mc ∧ w - 2 * q ≤ 0 ∧
      mc * (App.available_for_bars w q / mc) + 2 * q ≠ w) := by
  have hpos : ∀ w q : ℚ, 0 < App.available_for_bars w q := fun w q =>
    lt_of_lt_of_le one_pos (le_max_right _ _)
  refine ⟨?_, ?_, ?_⟩
  · intro mc h
    have hmc : 0 < mc := App.overflow_mc_pos mc h
    rw [App.draw_eq_of_overflow mc h]
    exact div_pos (hpos _ _) hmc
  · intro w q mc hmc
    exact div_pos (hpos _ _) hmc
  · refine ⟨0, 0, 1, one_pos, by norm_num, ?_⟩
    norm_num [App.available_for_bars]

/-- C9 witness: the overflow bar width at module count 300 is positive, and
the clamped quotient is positive at width 0, quiet zone 1, module count 5,
where the unclamped width would be negative. -/
theorem overflow_clamp_positive_witness :
    0 < (App.draw_single_label 300).bar_width ∧
    0 < App.available_for_bars 0 1 / 5 :=
  ⟨overflow_clamp_positive.1 300 (by
      norm_num [App.width_at_xmin, App.usable_w, App.PAGE_W, App.left_margin,
        App.right_margin, App.quiet_each_side, App.X_MIN_PT, App.MM_TO_PT]),
   overflow_clamp_positive.2.1 0 1 5 (by norm_num)⟩

/-- C10: every key of `COLOURS` is a key of `SERIES_BY_SKU`, so once the
colour-code check has passed, the `SERIES_BY_SKU[color_code]` lookup in
`validate_inputs` always finds an entry. -/
theorem colours_keys_have_series (k : String)
    (h : (COLOURS.lookup k).isSome) : (SERIES_BY_SKU.lookup k).isSome := by
  by_cases h1 : k = "AT0001"
  · subst h1; decide
  by_cases h2 : k = "AT0002"
  · subst h2; decide
  by_cases h3 : k = "AT0003"
  · subst h3; decide
  by_cases h4 : k = "AT0004"
  · subst h4; decide
  exfalso
  have e1 : (k == "AT0001") = false := beq_eq_false_iff_ne.mpr h1
  have e2 : (k == "AT0002") = false := beq_eq_false_iff_ne.mpr h2
  have e3 : (k == "AT0003") = false := beq_eq_false_iff_ne.mpr h3
  have e4 : (k == "AT0004") = false := beq_eq_false_iff_ne.mpr h4
  simp [COLOURS, List.lookup, e1, e2, e3, e4] at h

/-- C10 witness: the colour code AT0004 is a `COLOURS` key and its series
lookup succeeds. -/
theorem colours_keys_have_series_witness :
    (SERIES_BY_SKU.lookup "AT0004").isSome :=
  colours_keys_have_series "AT0004" (by decide)

/-- C5: an unknown colour code fails with the invalid-colour message before
the series is even examined; for a known colour code with allowed series
table entry, an allowed (upper-cased, trimmed) series passes on to the
number checks, and a disallowed one fails with the message listing exactly
that colour's allowed letters. -/
theorem validate_color_series_order
    (color_code series start_num end_num : String) :
    (COLOURS.lookup color_code = none →
      validate_inputs color_code series start_num end_num =
        .error ("Invalid colour code. Choose one of the listed AT000X values.")) ∧
    (∀ allowed : List String, (COLOURS.lookup color_code).isSome →
      SERIES_BY_SKU.lookup color_code = some allowed →
      (py_upper (py_strip series) ∈ allowed →
        validate_inputs color_code series start_num end_num =
          check_numbers (py_upper (py_strip series)) start_num end_num) ∧
      (py_upper (py_strip series) ∉ allowed →
        validate_inputs color_code series start_num end_num =
          .error ("Invalid series for " ++ color_code ++ ". Allowed: " ++
            String.intercalate (", ") allowed))) := by
  constructor
  · intro hnone
    simp [validate_inputs, hnone]
  · intro allowed hc hser
    obtain ⟨v, hv⟩ := Option.isSome_iff_exists.mp hc
    constructor
    · intro hmem
      simp [validate_inputs, hv, hser, hmem]
    · intro hmem
      simp [validate_inputs, hv, hser, hmem]

/-- C5 witness: an unknown colour fails with the colour message; for
AT0001, the allowed series c (normalised to C) goes on to the number
checks while the disallowed series A fails listing C, G, K, O, S, W. -/
theorem validate_color_series_order_witness :
    validate_inputs "ZZ" "C" "0001" "0002" =
      .error ("Invalid colour code. Choose one of the listed AT000X values.") ∧
    validate_inputs "AT0001" "c" "0001" "0002" =
      check_numbers (py_upper (py_strip "c")) "0001" "0002" ∧
    validate_inputs "AT0001" "A" "0001" "0002" =
      .error ("Invalid series for " ++ "AT0001" ++ ". Allowed: " ++
        String.intercalate (", ") ["C", "G", "K", "O", "S", "W"]) :=
  ⟨(validate_color_series_order "ZZ" "C" "0001" "0002").1 (by decide),
   ((validate_color_series_order "AT0001" "c" "0001" "0002").2
      ["C", "G", "K", "O", "S", "W"] (by decide) (by decide)).1 (by decide),
   ((validate_color_series_order "AT0001" "A" "0001" "0002").2
      ["C", "G", "K", "O", "S", "W"] (by decide) (by decide)).2 (by decide)⟩

/-- C4: for known colour, allowed series and exactly-4-digit start/end
strings whose values lie in 1..9999, `validate_inputs` returns the parsed
pair unchanged when start ≤ end, and fails with the end-must-be-at-least-
start message when end < start. -/
theorem validate_range_roundtrip
    (color_code series start_num end_num : String)
    (hc : (COLOURS.lookup color_code).isSome)
    (hs : py_upper (py_strip series) ∈ (SERIES_BY_SKU.lookup color_code).getD [])
    (hl1 : start_num.length = 4) (hl2 : end_num.length = 4)
    (hd1 : start_num.data.all Char.isDigit)
    (hd2 : end_num.data.all Char.isDigit)
    (hlo1 : 1 ≤ py_int start_num) (hhi1 : py_int start_num ≤ 9999)
    (hlo2 : 1 ≤ py_int end_num) (hhi2 : py_int end_num ≤ 9999) :
    (py_int start_num ≤ py_int end_num →
      validate_inputs color_code series start_num end_num =
        .ok (py_upper (py_strip series), py_int start_num, py_int end_num)) ∧
    (py_int end_num < py_int start_num →
      validate_inputs color_code series start_num end_num =
        .error ("End number must be greater than or equal to Start number.")) := by
  obtain ⟨v, hv⟩ := Option.isSome_iff_exists.mp hc
  have hval : validate_inputs color_code series start_num end_num =
      check_numbers (py_upper (py_strip series)) start_num end_num := by
    simp [validate_inputs, hv, hs]
  have hne1 : start_num ≠ "" := by
    intro he; rw [he] at hl1; exact absurd hl1 (by decide)
  have hne2 : end_num ≠ "" := by
    intro he; rw [he] at hl2; exact absurd hl2 (by decide)
  have hcond1 : ¬ ((start_num.isEmpty : Prop) ∨ (end_num.isEmpty : Prop)) := by
    rw [String.isEmpty_iff, String.isEmpty_iff]
    rintro (he | he)
    · exact hne1 he
    · exact hne2 he
  have hcond2 : ¬ (start_num.length ≠ 4 ∨ end_num.length ≠ 4 ∨
      ¬ (py_isdigit start_num : Prop) ∨ ¬ (py_isdigit end_num : Prop)) := by
    push_neg
    have hb1 : start_num.isEmpty = false := by
      rw [Bool.eq_false_iff]
      intro he
      exact hne1 ((String.isEmpty_iff start_num).mp he)
    have hb2 : end_num.isEmpty = false := by
      rw [Bool.eq_false_iff]
      intro he
      exact hne2 ((String.isEmpty_iff end_num).mp he)
    refine ⟨hl1, hl2, ?_, ?_⟩
    · simp [py_isdigit, hb1, hd1]
    · simp [py_isdigit, hb2, hd2]
  have hcond3 : ¬ ¬ (1 ≤ py_int start_num ∧ py_int start_num ≤ 9999 ∧
      1 ≤ py_int end_num ∧ py_int end_num ≤ 9999) :=
    not_not_intro ⟨hlo1, hhi1, hlo2, hhi2⟩
  constructor
  · intro hle
    rw [hval]
    simp only [check_numbers]
    rw [if_neg hcond1, if_neg hcond2, if_neg hcond3,
      if_neg (not_lt.mpr hle)]
  · intro hlt
    rw [hval]
    simp only [check_numbers]
    rw [if_neg hcond1, if_neg hcond2, if_neg hcond3, if_pos hlt]

/-- C4 witness: for AT0001, series C, range 0001..0003 the validator
returns the parsed pair, and for the swapped range it fails with the
ordering message. -/
theorem validate_range_roundtrip_witness :
    validate_inputs "AT0001" "C" "0001" "0003" =
      .ok (py_upper (py_strip "C"), py_int "0001", py_int "0003") ∧
    validate_inputs "AT0001" "C" "0003" "0001" =
      .error ("End number must be greater than or equal to Start number.") :=
  ⟨(validate_range_roundtrip "AT0001" "C" "0001" "0003" (by decide)
      (by decide) (by decide) (by decide) (by decide) (by decide)
      (by decide) (by decide) (by decide) (by decide)).1 (by decide),
   (validate_range_roundtrip "AT0001" "C" "0003" "0001" (by decide)
      (by decide) (by decide) (by decide) (by decide) (by decide)
      (by decide) (by decide) (by decide) (by decide)).2 (by decide)⟩

/-- C6: for a validated range s ≤ e the batch loop produces exactly
e − s + 1 texts, the i-th being `{color}-{series}{pad4 (s+i)}` in ascending
serial order; in particular AT0004, series D, 0001–0003 yields exactly
AT0004-D0001, AT0004-D0002, AT0004-D0003 in that order. -/
theorem batch_texts_ascending (color_code series : String) (s e : ℕ)
    (h : s ≤ e) :
    (label_texts color_code series s e).length = e - s + 1 ∧
    (∀ i (hi : i < (label_texts color_code series s e).length),
      (label_texts color_code series s e).get ⟨i, hi⟩ =
        color_code ++ "-" ++ series ++ pad4 (s + i)) ∧
    label_texts "AT0004" "D" 1 3 =
      ["AT0004-D0001", "AT0004-D0002", "AT0004-D0003"] := by
  refine ⟨?_, ?_, ?_⟩
  · simp only [label_texts, List.length_map, List.length_range']
    omega
  · intro i hi
    have hi2 : i < (List.range' s (e + 1 - s)).length := by
      simpa [label_texts] using hi
    simp only [label_texts, List.get_eq_getElem, List.getElem_map,
      List.getElem_range']
    rw [one_mul]
  · rfl

/-- C6 witness: the concrete range AT0004, series D, 0001–0003. -/
theorem batch_texts_ascending_witness :
    label_texts "AT0004" "D" 1 3 =
      ["AT0004-D0001", "AT0004-D0002", "AT0004-D0003"] :=
  (batch_texts_ascending "AT0004" "D" 1 3 (by norm_num)).2.2
